import Mathlib

/-!
Verification development for the `pyssa` stochastic-simulation wrapper
(`pyssa/simulation.py`).  The `Simulation` class stores the reaction
network (reactant/product stoichiometry, initial state, rate constants,
`chem_flag`, `volume`), validates it in `_check_consistency`, and
`Simulation.simulate` runs `n_rep` replicate calls of the engine
`direct_naive`, storing the collected results.

Modelling conventions:
* numpy 2-D integer arrays become rectangular `List (List ℤ)`; 1-D arrays
  of counts become `List ℤ`; rate constants and times become `List ℚ`;
* Python exceptions become `Except` / `Option` error values, one
  constructor per distinct `ValueError` raised by the source;
* Python values reaching the dynamically-typed `chem_flag` argument are
  modelled by `PyVal`, with Python `==` semantics (`True == 1`,
  `False == 0.0`, etc.) captured by `pyEq`;
* the engine `direct_naive` (whose source is not part of the wrapper
  module) is a parameter of the `simulate` model, so theorems about
  `simulate` hold for every engine; a concrete model of the engine,
  built from the specification, appears further below.
-/

/-- A numpy 2-D integer array: rows are reactions, columns are species. -/
abbrev Mat := List (List ℤ)

/-- `m.shape[0]` of a numpy 2-D array: the number of rows. -/
def shape0 (m : Mat) : ℕ := m.length

/-- `m.shape[1]` of a (rectangular) numpy 2-D array: the length of a row. -/
def shape1 (m : Mat) : ℕ := (m.headD []).length

/-- `np.any(m < 0)` for a 2-D integer array. -/
def anyNegMat (m : Mat) : Bool := m.any (fun row => row.any (fun x => decide (x < 0)))

/-- `np.any(v < 0)` for a 1-D integer array. -/
def anyNegVecI (v : List ℤ) : Bool := v.any (fun x => decide (x < 0))

/-- `np.any(v < 0)` for a 1-D rational array. -/
def anyNegVecQ (v : List ℚ) : Bool := v.any (fun x => decide (x < 0))

/-- A dynamically-typed Python value, as far as the `chem_flag` argument is
concerned: booleans, ints, floats (modelled as rationals), strings, `None`. -/
inductive PyVal where
  | bool (b : Bool)
  | int (n : ℤ)
  | float (q : ℚ)
  | str (s : String)
  | pynone
deriving DecidableEq

/-- Numeric view of a Python value: `True` is `1`, `False` is `0`, ints and
floats are their values; strings and `None` are not numeric. -/
def PyVal.numView : PyVal → Option ℚ
  | .bool b => some (if b then 1 else 0)
  | .int n => some (n : ℚ)
  | .float q => some q
  | _ => Option.none

/-- Python `==`: numeric values compare by value across `bool`/`int`/`float`
(so `1 == True` and `0.0 == False`); strings compare as strings; `None`
equals only `None`; everything else is unequal. -/
def pyEq (a b : PyVal) : Bool :=
  match a.numView, b.numView with
  | some x, some y => decide (x = y)
  | _, _ =>
    match a, b with
    | .str s, .str t => decide (s = t)
    | .pynone, .pynone => true
    | _, _ => false

/-- Python membership `a in (True, False)` with `==` semantics, as used by
the `chem_flag` check in `_check_consistency`. -/
def pyInTrueFalse (a : PyVal) : Bool :=
  pyEq a (.bool true) || pyEq a (.bool false)

/-- The distinct `ValueError`s raised by `Simulation.__init__` (via
`_check_consistency`) and `Simulation.simulate`, one constructor per
`raise` site, in source order. -/
inductive SimError where
  | shapeMismatch      -- react_stoic and prod_stoic should be the same shape
  | negReact           -- react_stoic cannot have negative elements
  | negProd            -- V_p cannot have negative elements
  | negInit            -- initial numbers in X0 can't be negative
  | negK               -- rate constant(s) can't be negative
  | kLenMismatch       -- number of rate constants must equal number of reactions
  | chemFlagNotBool    -- chem_flag must be a boolean True or False
  | orderGt3           -- order greater than 3 not supported
  | seedLenMismatch    -- seed should be as long as n_rep
  | algorithmUnsupported -- requested algorithm not supported
deriving DecidableEq

/-- The `Simulation` object after `__init__` has stored its attributes:
`_react_stoic`, `_prod_stoic`, `_init_state`, `_k_det`, `_chem_flag`,
`_nr`, `_ns`, `_volume`, `_orders`. -/
structure Simulation where
  react_stoic : Mat
  prod_stoic : Mat
  init_state : List ℤ
  k_det : List ℚ
  chem_flag : PyVal
  nr : ℕ
  ns : ℕ
  volume : ℚ
  orders : List ℤ
deriving DecidableEq

/-- `Simulation._check_consistency`: the eight `ValueError` checks in source
order; returns the first error raised, or `none` when all checks pass.
`np.max(self._orders) > 3` is rendered as `orders.any (3 < ·)`, which
agrees with the source whenever there is at least one reaction. -/
def checkConsistency (s : Simulation) : Option SimError :=
  if s.nr ≠ shape0 s.prod_stoic ∨ s.ns ≠ shape1 s.prod_stoic then some .shapeMismatch
  else if anyNegMat s.react_stoic then some .negReact
  else if anyNegMat s.prod_stoic then some .negProd
  else if anyNegVecI s.init_state then some .negInit
  else if anyNegVecQ s.k_det then some .negK
  else if s.k_det.length ≠ s.nr then some .kLenMismatch
  else if ¬ pyInTrueFalse s.chem_flag then some .chemFlagNotBool
  else if s.orders.any (fun o => decide (3 < o)) then some .orderGt3
  else Option.none

/-- The attribute assignments of `Simulation.__init__` before the
consistency check: store the arguments, derive `_nr`, `_ns` from
`react_stoic.shape` and `_orders = np.sum(react_stoic, 1)` (row sums). -/
def initSim (react prod : Mat) (init : List ℤ) (k : List ℚ)
    (chem : PyVal) (vol : ℚ) : Simulation :=
  { react_stoic := react
    prod_stoic := prod
    init_state := init
    k_det := k
    chem_flag := chem
    nr := shape0 react
    ns := shape1 react
    volume := vol
    orders := react.map (fun row => row.sum) }

/-- `Simulation.__init__`: store and derive the attributes, then run
`_check_consistency`; a failing check raises (returns `Except.error`) and
no object is produced. -/
def mkSimulation (react prod : Mat) (init : List ℤ) (k : List ℚ)
    (chem : PyVal) (vol : ℚ) : Except SimError Simulation :=
  match checkConsistency (initSim react prod init k chem vol) with
  | some e => .error e
  | Option.none => .ok (initSim react prod init k chem vol)

/-- Whether a construction attempt raised (any) `ValueError`. -/
def raisesError (r : Except SimError Simulation) : Bool :=
  match r with
  | .error _ => true
  | .ok _ => false

-- Sanity checks of the constructor model on the repository's own fixtures.
example :
    raisesError (mkSimulation [[1, 0, 0], [0, 1, 0]] [[0, 1, 0], [0, 0, 1]]
      [100, 0, 0] [1, 1] (.bool false) 1) = false := by decide

example :
    raisesError (mkSimulation [[4, 0, 0], [0, 1, 0]] [[0, 1, 0], [0, 0, 1]]
      [100, 0, 0] [1, 1] (.bool false) 1) = true := by decide

/-- One replicate's output stored by `simulate`: the object returned by one
`direct_naive(...)` call, `(t, X, status)` — the time points, the recorded
states, and the integer exit status. -/
abbrev RunOutput := List ℚ × List (List ℤ) × ℤ

/-- The `direct_naive` engine as `Simulation.simulate` calls it: a function
of `(react_stoic, prod_stoic, init_state, k_det, max_t, max_iter, volume,
seed, chem_flag)`.  `simulate` is modelled uniformly in the engine, so its
theorems hold whatever `direct_naive` computes. -/
abbrev Engine := Mat → Mat → List ℤ → List ℚ → ℚ → ℕ → ℚ → ℤ → PyVal → RunOutput

/-- The `Results(tlist, xlist, status_list, algorithm, seed)` container
built at the end of a successful `simulate` call. -/
structure Results where
  t_list : List (List ℚ)
  x_list : List (List (List ℤ))
  status_list : List ℤ
  algorithm : String
  seed : List ℤ
deriving DecidableEq

/-- The algorithm branch of `Simulation.simulate`: with the seed list fixed,
loop `for index in range(n_rep)` calling `direct_naive` on the stored
network data and `seed[index]`, appending `t`, `X`, `status` in index
order, and build the `Results`; any other algorithm string raises. -/
def simulateGo (engine : Engine) (sim : Simulation) (max_t : ℚ) (max_iter : ℕ)
    (volume : ℚ) (algorithm : String) (seeds : List ℤ) : Except SimError Results :=
  if algorithm = "direct_naive" then
    .ok { t_list := seeds.map (fun sd =>
            (engine sim.react_stoic sim.prod_stoic sim.init_state sim.k_det
              max_t max_iter volume sd sim.chem_flag).1)
          x_list := seeds.map (fun sd =>
            (engine sim.react_stoic sim.prod_stoic sim.init_state sim.k_det
              max_t max_iter volume sd sim.chem_flag).2.1)
          status_list := seeds.map (fun sd =>
            (engine sim.react_stoic sim.prod_stoic sim.init_state sim.k_det
              max_t max_iter volume sd sim.chem_flag).2.2)
          algorithm := algorithm
          seed := seeds }
  else .error .algorithmUnsupported

/-- `Simulation.simulate`: check the seed list (raising when a supplied
list's length differs from `n_rep`, defaulting to `[0, …, n_rep-1]` when
absent), then dispatch on the algorithm string. -/
def Simulation.simulateRun (engine : Engine) (sim : Simulation) (max_t : ℚ)
    (max_iter : ℕ) (volume : ℚ) (seed : Option (List ℤ)) (n_rep : ℕ)
    (algorithm : String) : Except SimError Results :=
  match seed with
  | some l =>
    if n_rep ≠ l.length then .error .seedLenMismatch
    else simulateGo engine sim max_t max_iter volume algorithm l
  | Option.none =>
    simulateGo engine sim max_t max_iter volume algorithm
      ((List.range n_rep).map (fun i : ℕ => (i : ℤ)))

/-- A `Simulation` object together with its mutable `_results` attribute
(`None` until a run completes). -/
structure SimState where
  sim : Simulation
  results : Option Results
deriving DecidableEq

/-- `Simulation.simulate` as a state transformer on the object: on success
`self._results` is overwritten with the new `Results`; when a check raises,
the exception propagates and `self._results` keeps its prior value. -/
def Simulation.simulateState (engine : Engine) (st : SimState) (max_t : ℚ)
    (max_iter : ℕ) (volume : ℚ) (seed : Option (List ℤ)) (n_rep : ℕ)
    (algorithm : String) : Except SimError Unit × SimState :=
  match Simulation.simulateRun engine st.sim max_t max_iter volume seed n_rep algorithm with
  | .ok r => (.ok (), { st with results := some r })
  | .error e => (.error e, st)

/-- The `Simulation.results` property: warn (first component `true`) and
return `None` when `_results` is `None`; otherwise return the stored
`Results` without warning. -/
def Simulation.resultsAccessor (st : SimState) : Bool × Option Results :=
  match st.results with
  | Option.none => (true, Option.none)
  | some r => (false, some r)

/-! ### Helper lemmas about the constructor and its consistency check -/

theorem checkConsistency_eq_none_iff (s : Simulation) :
    checkConsistency s = Option.none ↔
      (s.nr = shape0 s.prod_stoic ∧ s.ns = shape1 s.prod_stoic)
      ∧ anyNegMat s.react_stoic = false
      ∧ anyNegMat s.prod_stoic = false
      ∧ anyNegVecI s.init_state = false
      ∧ anyNegVecQ s.k_det = false
      ∧ s.k_det.length = s.nr
      ∧ pyInTrueFalse s.chem_flag = true
      ∧ s.orders.any (fun o => decide (3 < o)) = false := by
  unfold checkConsistency
  split_ifs <;> simp_all <;> tauto

theorem checkConsistency_negReact_fired (s : Simulation)
    (h : checkConsistency s = some .negReact) : anyNegMat s.react_stoic = true := by
  unfold checkConsistency at h
  split_ifs at h <;> simp_all

theorem checkConsistency_negProd_fired (s : Simulation)
    (h : checkConsistency s = some .negProd) : anyNegMat s.prod_stoic = true := by
  unfold checkConsistency at h
  split_ifs at h <;> simp_all

theorem checkConsistency_negInit_fired (s : Simulation)
    (h : checkConsistency s = some .negInit) : anyNegVecI s.init_state = true := by
  unfold checkConsistency at h
  split_ifs at h <;> simp_all

theorem checkConsistency_negK_fired (s : Simulation)
    (h : checkConsistency s = some .negK) : anyNegVecQ s.k_det = true := by
  unfold checkConsistency at h
  split_ifs at h <;> simp_all

theorem checkConsistency_orderGt3_fired (s : Simulation)
    (h : checkConsistency s = some .orderGt3) :
    s.orders.any (fun o => decide (3 < o)) = true := by
  unfold checkConsistency at h
  split_ifs at h <;> simp_all

theorem checkConsistency_chemFlag_fired (s : Simulation)
    (h : checkConsistency s = some .chemFlagNotBool) :
    pyInTrueFalse s.chem_flag = false := by
  unfold checkConsistency at h
  split_ifs at h <;> simp_all

theorem mkSimulation_error_iff (react prod : Mat) (init : List ℤ) (k : List ℚ)
    (chem : PyVal) (vol : ℚ) (e : SimError) :
    mkSimulation react prod init k chem vol = .error e ↔
      checkConsistency (initSim react prod init k chem vol) = some e := by
  unfold mkSimulation
  split <;> simp_all

theorem mkSimulation_ok_iff (react prod : Mat) (init : List ℤ) (k : List ℚ)
    (chem : PyVal) (vol : ℚ) (sim : Simulation) :
    mkSimulation react prod init k chem vol = .ok sim ↔
      checkConsistency (initSim react prod init k chem vol) = Option.none
      ∧ sim = initSim react prod init k chem vol := by
  unfold mkSimulation
  split <;> simp_all <;> tauto

theorem raisesError_iff (react prod : Mat) (init : List ℤ) (k : List ℚ)
    (chem : PyVal) (vol : ℚ) :
    raisesError (mkSimulation react prod init k chem vol) = true ↔
      checkConsistency (initSim react prod init k chem vol) ≠ Option.none := by
  cases h : checkConsistency (initSim react prod init k chem vol) <;>
    simp [mkSimulation, raisesError, h]

/-! ### Claims about construction-time validation -/

/-- C2: construction derives each reaction's order as the row sum of its
reactant stoichiometric coefficients and raises a `ValueError` whenever
some derived order exceeds 3; when every order is at most 3 the order
check never fires, and on success the stored `_orders` are exactly the
row sums. -/
theorem construction_order_check (react prod : Mat) (init : List ℤ) (k : List ℚ)
    (chem : PyVal) (vol : ℚ) :
    ((react.map (fun row => row.sum)).any (fun o => decide (3 < o)) = true →
      raisesError (mkSimulation react prod init k chem vol) = true)
    ∧ ((react.map (fun row => row.sum)).any (fun o => decide (3 < o)) = false →
      mkSimulation react prod init k chem vol ≠ .error .orderGt3)
    ∧ (∀ sim, mkSimulation react prod init k chem vol = .ok sim →
      sim.orders = react.map (fun row => row.sum)) := by
  refine ⟨?_, ?_, ?_⟩
  · intro h
    rw [raisesError_iff]
    intro hn
    rw [checkConsistency_eq_none_iff] at hn
    obtain ⟨-, -, -, -, -, -, -, h8⟩ := hn
    simp only [initSim] at h8
    simp [h] at h8
  · intro h heq
    rw [mkSimulation_error_iff] at heq
    have h8 := checkConsistency_orderGt3_fired _ heq
    simp only [initSim] at h8
    simp [h] at h8
  · intro sim hok
    rw [mkSimulation_ok_iff] at hok
    rw [hok.2]
    rfl

/-- Witness for C2 at concrete inputs: a single order-4 reaction is
rejected, a single order-1 reaction is not rejected by the order check,
and its stored orders are the row sums. -/
theorem construction_order_check_witness :
    raisesError (mkSimulation [[4]] [[0]] [1] [1] (.bool false) 1) = true
    ∧ mkSimulation [[1]] [[1]] [1] [1] (.bool false) 1 ≠ .error .orderGt3
    ∧ (initSim [[1]] [[1]] [1] [1] (.bool false) 1).orders
        = [[(1 : ℤ)]].map (fun row => row.sum) := by
  refine ⟨(construction_order_check [[4]] [[0]] [1] [1] (.bool false) 1).1 (by decide),
    (construction_order_check [[1]] [[1]] [1] [1] (.bool false) 1).2.1 (by decide),
    (construction_order_check [[1]] [[1]] [1] [1] (.bool false) 1).2.2
      (initSim [[1]] [[1]] [1] [1] (.bool false) 1) rfl⟩

/-- C3: construction raises a `ValueError` whenever the reactant and
product matrices have different shapes, or the rate-constant vector's
length differs from the number of reactions (`react_stoic.shape[0]`). -/
theorem construction_shape_klen_check (react prod : Mat) (init : List ℤ) (k : List ℚ)
    (chem : PyVal) (vol : ℚ)
    (h : shape0 react ≠ shape0 prod ∨ shape1 react ≠ shape1 prod
      ∨ k.length ≠ shape0 react) :
    raisesError (mkSimulation react prod init k chem vol) = true := by
  rw [raisesError_iff]
  intro hn
  rw [checkConsistency_eq_none_iff] at hn
  obtain ⟨⟨h1, h2⟩, -, -, -, -, h6, -, -⟩ := hn
  simp only [initSim] at h1 h2 h6
  rcases h with h | h | h
  · exact h h1
  · exact h h2
  · exact h h6

/-- Witness for C3: the spec's own example, a (2,3) reactant matrix paired
with a (3,2) product matrix, is rejected. -/
theorem construction_shape_klen_check_witness :
    raisesError (mkSimulation [[1, 0, 0], [0, 1, 0]] [[0, 0], [0, 0], [0, 0]]
      [0, 0, 0] [1, 1] (.bool false) 1) = true :=
  construction_shape_klen_check [[1, 0, 0], [0, 1, 0]] [[0, 0], [0, 0], [0, 0]]
    [0, 0, 0] [1, 1] (.bool false) 1 (by decide)

/-- C4: construction raises a `ValueError` if any entry of the reactant
matrix, product matrix, initial state, or rate-constant vector is
negative; when all four are elementwise non-negative, none of the four
negativity checks fires. -/
theorem construction_negativity_check (react prod : Mat) (init : List ℤ) (k : List ℚ)
    (chem : PyVal) (vol : ℚ) :
    ((anyNegMat react = true ∨ anyNegMat prod = true ∨ anyNegVecI init = true
        ∨ anyNegVecQ k = true) →
      raisesError (mkSimulation react prod init k chem vol) = true)
    ∧ (anyNegMat react = false → anyNegMat prod = false → anyNegVecI init = false →
      anyNegVecQ k = false →
      mkSimulation react prod init k chem vol ≠ .error .negReact
      ∧ mkSimulation react prod init k chem vol ≠ .error .negProd
      ∧ mkSimulation react prod init k chem vol ≠ .error .negInit
      ∧ mkSimulation react prod init k chem vol ≠ .error .negK) := by
  constructor
  · intro h
    rw [raisesError_iff]
    intro hn
    rw [checkConsistency_eq_none_iff] at hn
    obtain ⟨-, h2, h3, h4, h5, -, -, -⟩ := hn
    simp only [initSim] at h2 h3 h4 h5
    rcases h with h | h | h | h <;> simp_all
  · intro h2 h3 h4 h5
    refine ⟨?_, ?_, ?_, ?_⟩
    · intro heq
      rw [mkSimulation_error_iff] at heq
      have hc := checkConsistency_negReact_fired _ heq
      simp only [initSim] at hc
      simp [hc] at h2
    · intro heq
      rw [mkSimulation_error_iff] at heq
      have hc := checkConsistency_negProd_fired _ heq
      simp only [initSim] at hc
      simp [hc] at h3
    · intro heq
      rw [mkSimulation_error_iff] at heq
      have hc := checkConsistency_negInit_fired _ heq
      simp only [initSim] at hc
      simp [hc] at h4
    · intro heq
      rw [mkSimulation_error_iff] at heq
      have hc := checkConsistency_negK_fired _ heq
      simp only [initSim] at hc
      simp [hc] at h5

/-- Witness for C4 at concrete inputs: a negative reactant entry is
rejected; an all-non-negative system triggers no negativity error. -/
theorem construction_negativity_check_witness :
    raisesError (mkSimulation [[-1]] [[1]] [1] [1] (.bool false) 1) = true
    ∧ mkSimulation [[1]] [[1]] [1] [1] (.bool false) 1 ≠ .error .negReact :=
  ⟨(construction_negativity_check [[-1]] [[1]] [1] [1] (.bool false) 1).1 (by decide),
    ((construction_negativity_check [[1]] [[1]] [1] [1] (.bool false) 1).2
      (by decide) (by decide) (by decide) (by decide)).1⟩

/-- C10 counterexample: the Python int `1` is not the boolean `True` or
`False`, yet construction with `chem_flag = 1` raises no error, because
`1 in (True, False)` holds under Python `==` (`1 == True`). -/
theorem chem_flag_nonbool_counterexample :
    raisesError (mkSimulation [[1]] [[1]] [1] [1] (.int 1) 1) = false
    ∧ PyVal.int 1 ≠ PyVal.bool true ∧ PyVal.int 1 ≠ PyVal.bool false := by
  decide

/-- C10 (amended): construction raises a `ValueError` when `chem_flag`
compares unequal, under Python `==`, to both `True` and `False`; a value
that compares equal to `True` or to `False` (including non-booleans such
as the ints `1` and `0` or the floats `1.0` and `0.0`) never triggers the
`chem_flag` check. -/
theorem chem_flag_check (react prod : Mat) (init : List ℤ) (k : List ℚ)
    (chem : PyVal) (vol : ℚ) :
    (pyInTrueFalse chem = false →
      raisesError (mkSimulation react prod init k chem vol) = true)
    ∧ (pyInTrueFalse chem = true →
      mkSimulation react prod init k chem vol ≠ .error .chemFlagNotBool) := by
  constructor
  · intro h
    rw [raisesError_iff]
    intro hn
    rw [checkConsistency_eq_none_iff] at hn
    obtain ⟨-, -, -, -, -, -, h7, -⟩ := hn
    simp only [initSim] at h7
    simp [h] at h7
  · intro h heq
    rw [mkSimulation_error_iff] at heq
    have h7 := checkConsistency_chemFlag_fired _ heq
    simp only [initSim] at h7
    simp [h] at h7

/-- Witness for the amended C10: a string `chem_flag` is rejected, while
the int `1` never triggers the `chem_flag` check. -/
theorem chem_flag_check_witness :
    raisesError (mkSimulation [[1]] [[1]] [1] [1] (.str "yes") 1) = true
    ∧ mkSimulation [[1]] [[1]] [1] [1] (.int 1) 1 ≠ .error .chemFlagNotBool :=
  ⟨(chem_flag_check [[1]] [[1]] [1] [1] (.str "yes") 1).1 (by decide),
    (chem_flag_check [[1]] [[1]] [1] [1] (.int 1) 1).2 (by decide)⟩

/-! ### Claims about `Simulation.simulate` and `Simulation.results` -/

/-- Engine probe reporting the `volume` argument it received as its time
output, used to observe which volume `simulate` forwards to the engine. -/
def probeEngine : Engine := fun _ _ _ _ _ _ vol _ _ => ([vol], [], 0)

/-- C1 counterexample: construct the basic two-reaction network with
constructor volume `7`, then call `simulate` with its default `volume = 1`;
the engine receives volume `1`, not the constructor's `7`, so replicate
runs do not use the volume the object was constructed with. -/
theorem simulate_volume_counterexample :
    (mkSimulation [[1, 0, 0], [0, 1, 0]] [[0, 1, 0], [0, 0, 1]] [100, 0, 0] [1, 1]
        (.bool false) 7).map
      (fun sim => (sim.volume,
        (Simulation.simulateRun probeEngine sim 10 1000 1 Option.none 1
          "direct_naive").map Results.t_list))
      = .ok (7, .ok [[1]])
    ∧ (7 : ℚ) ≠ 1 := by
  constructor
  · rfl
  · decide

/-- C1 (amended): every replicate run started by `simulate` passes the
`volume` argument of `simulate` (default `1.0`) to the engine — the same
value for every replicate — while the volume stored by the constructor is
never forwarded: the outcome of `simulate` is invariant under changing the
stored `_volume`, and a probe engine observes `simulate`'s own `volume`
argument in every replicate. -/
theorem simulate_volume_source (engine : Engine) (sim : Simulation) (v2 : ℚ)
    (max_t : ℚ) (max_iter : ℕ) (volume : ℚ) (seed : Option (List ℤ)) (n_rep : ℕ)
    (algorithm : String) (seeds : List ℤ) :
    Simulation.simulateRun engine { sim with volume := v2 } max_t max_iter volume
        seed n_rep algorithm
      = Simulation.simulateRun engine sim max_t max_iter volume seed n_rep algorithm
    ∧ (Simulation.simulateRun probeEngine sim max_t max_iter volume (some seeds)
        seeds.length "direct_naive").map Results.t_list
      = .ok (seeds.map (fun _ => [volume])) := by
  constructor
  · cases seed <;> simp [Simulation.simulateRun, simulateGo]
  · simp [Simulation.simulateRun, simulateGo, probeEngine, Except.map]

/-- C5: with no seed list, `simulate` uses seeds `0, 1, …, n_rep - 1` in
that order; a supplied seed list whose length differs from `n_rep` raises
a `ValueError` before any replicate executes and leaves the stored
`_results` unchanged. -/
theorem simulate_seed_handling (engine : Engine) (st : SimState) (max_t : ℚ)
    (max_iter : ℕ) (volume : ℚ) (n_rep : ℕ) (l : List ℤ) (algorithm : String) :
    (Simulation.simulateRun engine st.sim max_t max_iter volume Option.none n_rep
        "direct_naive").map Results.seed
      = .ok ((List.range n_rep).map (fun i : ℕ => (i : ℤ)))
    ∧ (n_rep ≠ l.length →
      Simulation.simulateState engine st max_t max_iter volume (some l) n_rep
          algorithm
        = (.error .seedLenMismatch, st)) := by
  constructor
  · simp [Simulation.simulateRun, simulateGo, Except.map]
  · intro h
    simp [Simulation.simulateState, Simulation.simulateRun, h]

/-- Witness for C5 at concrete inputs: one default-seed run and one run
with a length-1 seed list against `n_rep = 2`. -/
theorem simulate_seed_handling_witness :
    (Simulation.simulateRun (fun _ _ _ _ _ _ _ _ _ => ([], [], 0))
        (initSim [[1]] [[1]] [1] [1] (.bool false) 1) 10 1000 1 Option.none 2
        "direct_naive").map Results.seed
      = .ok ((List.range 2).map (fun i : ℕ => (i : ℤ)))
    ∧ Simulation.simulateState (fun _ _ _ _ _ _ _ _ _ => ([], [], 0))
        ⟨initSim [[1]] [[1]] [1] [1] (.bool false) 1, Option.none⟩ 10 1000 1
        (some [5]) 2 "direct_naive"
      = (.error .seedLenMismatch,
          ⟨initSim [[1]] [[1]] [1] [1] (.bool false) 1, Option.none⟩) :=
  ⟨(simulate_seed_handling (fun _ _ _ _ _ _ _ _ _ => ([], [], 0))
      ⟨initSim [[1]] [[1]] [1] [1] (.bool false) 1, Option.none⟩ 10 1000 1 2 [5]
      "direct_naive").1,
    (simulate_seed_handling (fun _ _ _ _ _ _ _ _ _ => ([], [], 0))
      ⟨initSim [[1]] [[1]] [1] [1] (.bool false) 1, Option.none⟩ 10 1000 1 2 [5]
      "direct_naive").2 (by decide)⟩

/-- C6: `simulate` with algorithm `"direct_naive"` performs exactly one
engine call per replicate — `n_rep` of them — each receiving the shared
network data (`react_stoic`, `prod_stoic`, `init_state`, `k_det`,
`chem_flag`) and that replicate's own seed, and the collected `t`, `X`,
`status` sequences follow replicate index order `0 … n_rep - 1`. -/
theorem simulate_replicate_order (engine : Engine) (sim : Simulation) (max_t : ℚ)
    (max_iter : ℕ) (volume : ℚ) (seeds : List ℤ) (n_rep : ℕ) :
    Simulation.simulateRun engine sim max_t max_iter volume (some seeds)
        seeds.length "direct_naive"
      = .ok { t_list := seeds.map (fun sd => (engine sim.react_stoic sim.prod_stoic
                sim.init_state sim.k_det max_t max_iter volume sd sim.chem_flag).1)
              x_list := seeds.map (fun sd => (engine sim.react_stoic sim.prod_stoic
                sim.init_state sim.k_det max_t max_iter volume sd sim.chem_flag).2.1)
              status_list := seeds.map (fun sd => (engine sim.react_stoic
                sim.prod_stoic sim.init_state sim.k_det max_t max_iter volume sd
                sim.chem_flag).2.2)
              algorithm := "direct_naive"
              seed := seeds }
    ∧ Simulation.simulateRun engine sim max_t max_iter volume Option.none n_rep
        "direct_naive"
      = Simulation.simulateRun engine sim max_t max_iter volume
          (some ((List.range n_rep).map (fun i : ℕ => (i : ℤ))))
          ((List.range n_rep).map (fun i : ℕ => (i : ℤ))).length "direct_naive"
    ∧ ((List.range n_rep).map (fun i : ℕ => (i : ℤ))).length = n_rep := by
  refine ⟨?_, ?_, by rw [List.length_map, List.length_range]⟩
  · simp [Simulation.simulateRun, simulateGo]
  · simp [Simulation.simulateRun, simulateGo]

/-- C7: the `results` property warns exactly when `_results` is still
`None` (no completed run), returning `None` in that case, and returns
the stored `Results` without warning otherwise; it never raises. -/
theorem results_accessor_spec (st : SimState) :
    Simulation.resultsAccessor st = (st.results.isNone, st.results) := by
  cases h : st.results <;> simp [Simulation.resultsAccessor, h]

/-- C9: for every algorithm string other than `"direct_naive"`,
`simulate` raises a `ValueError`, the stored `_results` keep their prior
value, and no replicate runs — the outcome does not depend on the engine
at all. -/
theorem simulate_unknown_algorithm (engineA engineB : Engine) (st : SimState)
    (max_t : ℚ) (max_iter : ℕ) (volume : ℚ) (seed : Option (List ℤ)) (n_rep : ℕ)
    (algorithm : String) (h : algorithm ≠ "direct_naive") :
    (Simulation.simulateState engineA st max_t max_iter volume seed n_rep algorithm
        = (.error .algorithmUnsupported, st)
      ∨ Simulation.simulateState engineA st max_t max_iter volume seed n_rep
          algorithm
        = (.error .seedLenMismatch, st))
    ∧ Simulation.simulateState engineA st max_t max_iter volume seed n_rep algorithm
      = Simulation.simulateState engineB st max_t max_iter volume seed n_rep
          algorithm := by
  cases seed with
  | none =>
    constructor
    · exact Or.inl (by simp [Simulation.simulateState, Simulation.simulateRun,
        simulateGo, h])
    · simp [Simulation.simulateState, Simulation.simulateRun, simulateGo, h]
  | some l =>
    by_cases hl : n_rep ≠ l.length
    · constructor
      · exact Or.inr (by simp [Simulation.simulateState, Simulation.simulateRun, hl])
      · simp [Simulation.simulateState, Simulation.simulateRun, hl]
    · constructor
      · exact Or.inl (by simp [Simulation.simulateState, Simulation.simulateRun,
          simulateGo, h, hl])
      · simp [Simulation.simulateState, Simulation.simulateRun, simulateGo, h, hl]

/-- Witness for C9 at a concrete unsupported algorithm string, with two
different engines and a prior stored result kept intact. -/
theorem simulate_unknown_algorithm_witness :
    Simulation.simulateState (fun _ _ _ _ _ _ _ _ _ => ([], [], 0))
        ⟨initSim [[1]] [[1]] [1] [1] (.bool false) 1, Option.none⟩ 10 1000 1
        Option.none 1 "tau_leaping"
      = Simulation.simulateState (fun _ _ _ _ _ _ _ _ _ => ([1], [[1]], 1))
        ⟨initSim [[1]] [[1]] [1] [1] (.bool false) 1, Option.none⟩ 10 1000 1
        Option.none 1 "tau_leaping" :=
  (simulate_unknown_algorithm (fun _ _ _ _ _ _ _ _ _ => ([], [], 0))
    (fun _ _ _ _ _ _ _ _ _ => ([1], [[1]], 1))
    ⟨initSim [[1]] [[1]] [1] [1] (.bool false) 1, Option.none⟩ 10 1000 1
    Option.none 1 "tau_leaping" (by decide)).2

/-! ### Spec-modelled replicate engine (`direct_naive`)

The module imports `direct_naive` from a sibling module whose source is
not part of the wrapper file, so the engine is modelled from the
specification: propensity evaluation (§4.2), the event sampler (§4.3) and
the driver state machine (§4.4), with status codes as documented in
`Simulation.simulate`'s docstring (1 = max-iterations, 2 = max-time
crossed, 3 = extinction, -1 = invalid order, -2 = zero propensity without
extinction).  The replicate's RNG stream is abstracted as a seed-indexed
family of draws; the first component of a draw models the exponential
variate `-ln(u1)` and the second the uniform `u2`, so the model stays in
ℚ while preserving how the draws are consumed. -/

/-- Python truthiness, used where the engine branches on `chem_flag`. -/
def pyTruthy : PyVal → Bool
  | .bool b => b
  | .int n => decide (n ≠ 0)
  | .float q => decide (q ≠ 0)
  | .str s => decide (s ≠ "")
  | .pynone => false

/-- Avogadro's constant as a rational, for the stochastic scaling. -/
def avogadro : ℚ := 602214076000000000000000

/-- Modelled from the spec: the per-species combinatorial factor of the
propensity — coefficient 0 contributes 1, coefficient 1 contributes `n`,
coefficient 2 contributes `n (n-1) / 2`, coefficient 3 contributes
`n (n-1) (n-2) / 6`; larger coefficients are unsupported. -/
def combTerm (n c : ℤ) : ℚ :=
  if c ≤ 0 then 1
  else if c = 1 then (n : ℚ)
  else if c = 2 then (n : ℚ) * ((n : ℚ) - 1) / 2
  else if c = 3 then (n : ℚ) * ((n : ℚ) - 1) * ((n : ℚ) - 2) / 6
  else 0

/-- Modelled from the spec: conversion of the deterministic rate constant
of a reaction of order `o` to its stochastic one — division by
`(avogadro * volume) ^ (o - 1)` when the stochastic-scaling flag is
truthy, applied once per reaction from `o` alone. -/
def kstocOf (chem : PyVal) (volume : ℚ) (kr : ℚ) (o : ℤ) : ℚ :=
  if pyTruthy chem then kr / (avogadro * volume) ^ (o - 1) else kr

/-- Modelled from the spec (§4.2): the propensity of one reaction at the
current state, the scaled rate constant times the product of the
per-species combinatorial factors. -/
def propensityOf (chem : PyVal) (volume : ℚ) (kr : ℚ) (row : List ℤ)
    (x : List ℤ) : ℚ :=
  kstocOf chem volume kr row.sum * (List.zipWith combTerm x row).prod

/-- The propensity vector: one propensity per reaction, recomputed from
the current state. -/
def propensities (chem : PyVal) (volume : ℚ) (react : Mat) (k : List ℚ)
    (x : List ℤ) : List ℚ :=
  List.zipWith (fun kr row => propensityOf chem volume kr row x) k react

/-- Modelled from the spec (§4.3): inverse-CDF selection — the smallest
index whose cumulative propensity strictly exceeds the target, falling
back to the last index if rounding pushes the target past the final
cumulative sum. -/
def selectAux (props : List ℚ) (acc target : ℚ) (i : ℕ) : ℕ :=
  match props with
  | [] => i - 1
  | p :: rest => if target < acc + p then i else selectAux rest (acc + p) target (i + 1)

/-- Reaction selection over the whole propensity vector. -/
def selectReaction (props : List ℚ) (target : ℚ) : ℕ :=
  selectAux props 0 target 0

/-- State update for firing reaction `j`:
`state += productStoic[j] - reactantStoic[j]`, elementwise. -/
def applyReaction (react prod : Mat) (j : ℕ) (x : List ℤ) : List ℤ :=
  List.zipWith (fun xi d => xi + d) x
    (List.zipWith (fun p r => p - r) (prod.getD j []) (react.getD j []))

/-- The running data of one replicate: current time, current state, and
the recorded time and state samples. -/
structure DriverState where
  t : ℚ
  x : List ℤ
  times : List ℚ
  states : List (List ℤ)

/-- Modelled from the spec (§4.4): the per-replicate driver loop.  Each
step evaluates propensities; zero total propensity terminates with
status 3 (all extinct) or -2 (zero propensity without extinction); an
event that would cross `max_t` terminates with status 2 without being
applied; otherwise the event fires, time advances by `tau` and the new
sample is appended; exhausting the iteration budget gives status 1. -/
def simLoop (rng : ℕ → ℚ × ℚ) (chem : PyVal) (volume : ℚ) (react prod : Mat)
    (k : List ℚ) (max_t : ℚ) : ℕ → ℕ → DriverState → RunOutput
  | 0, _, st => (st.times, st.states, 1)
  | fuel + 1, step, st =>
    let props := propensities chem volume react k st.x
    let a0 := props.sum
    if a0 = 0 then
      (st.times, st.states, if st.x.sum = 0 then 3 else -2)
    else
      let draw := rng step
      let tau := draw.1 / a0
      if max_t < st.t + tau then (st.times, st.states, 2)
      else
        let x2 := applyReaction react prod (selectReaction props (draw.2 * a0)) st.x
        simLoop rng chem volume react prod k max_t fuel (step + 1)
          { t := st.t + tau
            x := x2
            times := st.times ++ [st.t + tau]
            states := st.states ++ [x2] }

/-- Modelled from the spec: `direct_naive`, the replicate engine.  It
re-checks `order ≤ 3` defensively (status -1), then runs the driver loop
from `(0, init_state)` with the RNG stream drawn from the seed. -/
def directNaive (rngFam : ℤ → ℕ → ℚ × ℚ) (react prod : Mat) (init : List ℤ)
    (k : List ℚ) (max_t : ℚ) (max_iter : ℕ) (volume : ℚ) (seed : ℤ)
    (chem : PyVal) : RunOutput :=
  if (react.map (fun row => row.sum)).any (fun o => decide (3 < o)) then ([], [], -1)
  else
    simLoop (rngFam seed) chem volume react prod k max_t max_iter 0
      { t := 0, x := init, times := [0], states := [init] }

-- Sanity checks of the engine model: immediate extinction (status 3) and
-- zero propensity without extinction (status -2).
example :
    directNaive (fun _ _ => (1, 1/2)) [[1]] [[0]] [0] [1] 10 5 1 0 (.bool false)
      = ([0], [[0]], 3) := by
  norm_num [directNaive, simLoop, propensities, propensityOf, kstocOf, combTerm,
    pyTruthy]

example :
    directNaive (fun _ _ => (1, 1/2)) [[1]] [[0]] [5] [0] 10 5 1 0 (.bool false)
      = ([0], [[5]], -2) := by
  norm_num [directNaive, simLoop, propensities, propensityOf, kstocOf, combTerm,
    pyTruthy]

/-- C8: determinism — two replicate runs with identical stoichiometry,
initial state, rate constants, bounds, volume, flag, and seed (hence the
same RNG stream) produce identical time sequences, state sequences, and
statuses.  The engine is spec-modelled; once the RNG stream family is
fixed, the replicate is a pure function of its inputs. -/
theorem directNaive_deterministic (rngFam : ℤ → ℕ → ℚ × ℚ)
    (reactA prodA : Mat) (initA : List ℤ) (kA : List ℚ) (max_tA : ℚ)
    (max_iterA : ℕ) (volumeA : ℚ) (seedA : ℤ) (chemA : PyVal)
    (reactB prodB : Mat) (initB : List ℤ) (kB : List ℚ) (max_tB : ℚ)
    (max_iterB : ℕ) (volumeB : ℚ) (seedB : ℤ) (chemB : PyVal)
    (hr : reactA = reactB) (hp : prodA = prodB) (hi : initA = initB)
    (hk : kA = kB) (ht : max_tA = max_tB) (hn : max_iterA = max_iterB)
    (hv : volumeA = volumeB) (hs : seedA = seedB) (hc : chemA = chemB) :
    directNaive rngFam reactA prodA initA kA max_tA max_iterA volumeA seedA chemA
      = directNaive rngFam reactB prodB initB kB max_tB max_iterB volumeB seedB
          chemB := by
  subst hr hp hi hk ht hn hv hs hc
  rfl

/-- Witness for C8: the basic fixture network run twice with seed 0 and a
concrete RNG stream gives identical output. -/
theorem directNaive_deterministic_witness :
    directNaive (fun _ _ => (1, 1/2)) [[1, 0, 0], [0, 1, 0]] [[0, 1, 0], [0, 0, 1]]
        [100, 0, 0] [1, 1] 10 100 1 0 (.bool false)
      = directNaive (fun _ _ => (1, 1/2)) [[1, 0, 0], [0, 1, 0]] [[0, 1, 0], [0, 0, 1]]
        [100, 0, 0] [1, 1] 10 100 1 0 (.bool false) :=
  directNaive_deterministic (fun _ _ => (1, 1/2))
    [[1, 0, 0], [0, 1, 0]] [[0, 1, 0], [0, 0, 1]] [100, 0, 0] [1, 1] 10 100 1 0
    (.bool false)
    [[1, 0, 0], [0, 1, 0]] [[0, 1, 0], [0, 0, 1]] [100, 0, 0] [1, 1] 10 100 1 0
    (.bool false)
    rfl rfl rfl rfl rfl rfl rfl rfl rfl
